import Mathlib

/-!
Shallow embedding of the classification core of the Prostate Risk Navigator
(`src/app.py`): TNM stage normalization and predicates, the Gleason-pattern →
Grade-Group mapping, the NCCN risk classifier, the AJCC 8th-edition prognostic
stage classifier, the disease-category classifier, and the biopsy-core
aggregation that feeds the classifiers.

Embedding conventions:
* Python `str` values that undergo string processing (TNM stage strings) are
  embedded as `List Char` (`Str` below), so that `strip`/`lower`/`startswith`
  are ordinary structural functions; labels that are only produced and compared
  for equality stay `String`.
* Python exceptions (`raise ValueError`) are embedded as `Except String _`
  and exception propagation as explicit `.error` propagation, preserving the
  source's evaluation order and short-circuiting of `and`/`or`.
* Python floats (PSA values, percentages) are embedded as `ℚ`; Python ints as
  `Int`.
* The human-readable `details` rationale lists built by the source are pure
  string accumulation with no effect on control flow and are omitted; the
  claims under verification concern only the returned labels, subcategories
  and error behaviour.
-/

/-- Python strings of the classification core, as lists of characters. -/
abbrev Str : Type := List Char

/-- Python `str.lower()`. -/
def py_lower (s : Str) : Str := s.map Char.toLower

/-- Python `str.strip()`: remove leading and trailing whitespace. -/
def py_strip (s : Str) : Str :=
  ((s.dropWhile Char.isWhitespace).reverse.dropWhile Char.isWhitespace).reverse

/-- Python `s.startswith(p)`. -/
def py_startswith (s p : Str) : Bool := p.isPrefixOf s

/-- `_normalize_stage` from app.py: trim and lowercase, strip one optional
leading `c`/`p` prefix character, then require the remainder to start with the
axis letter; raises `ValueError` (here `Except.error`) otherwise. -/
def _normalize_stage (stage : Str) (letter : Str) : Except String Str :=
  let s0 := py_lower (py_strip stage)
  let s := if py_startswith s0 ['c'] || py_startswith s0 ['p'] then s0.drop 1 else s0
  if py_startswith s letter then .ok s
  else .error ("stage must start with the axis letter " ++ String.mk letter)

/-- `normalize_t_stage` from app.py. -/
def normalize_t_stage (t_stage : Str) : Except String Str :=
  _normalize_stage t_stage ['t']

/-- `normalize_n_stage` from app.py. -/
def normalize_n_stage (n_stage : Str) : Except String Str :=
  _normalize_stage n_stage ['n']

/-- `normalize_m_stage` from app.py. -/
def normalize_m_stage (m_stage : Str) : Except String Str :=
  _normalize_stage m_stage ['m']

/-- `is_t1` from app.py. -/
def is_t1 (t_stage : Str) : Except String Bool :=
  (normalize_t_stage t_stage).map (fun s => py_startswith s ['t', '1'])

/-- `is_t2` from app.py. -/
def is_t2 (t_stage : Str) : Except String Bool :=
  (normalize_t_stage t_stage).map (fun s => py_startswith s ['t', '2'])

/-- `is_t2a` from app.py. -/
def is_t2a (t_stage : Str) : Except String Bool :=
  (normalize_t_stage t_stage).map (fun s => py_startswith s ['t', '2', 'a'])

/-- `is_t2b_to_t2c` from app.py. -/
def is_t2b_to_t2c (t_stage : Str) : Except String Bool :=
  (normalize_t_stage t_stage).map
    (fun s => py_startswith s ['t', '2', 'b'] || py_startswith s ['t', '2', 'c'])

/-- `is_t3_to_t4` from app.py. -/
def is_t3_to_t4 (t_stage : Str) : Except String Bool :=
  (normalize_t_stage t_stage).map
    (fun s => py_startswith s ['t', '3'] || py_startswith s ['t', '4'])

/-- `has_regional_nodes` from app.py (N1). -/
def has_regional_nodes (n_stage : Str) : Except String Bool :=
  (normalize_n_stage n_stage).map (fun s => py_startswith s ['n', '1'])

/-- `has_distant_metastasis` from app.py (M1, including M1a/b/c). -/
def has_distant_metastasis (m_stage : Str) : Except String Bool :=
  (normalize_m_stage m_stage).map (fun s => py_startswith s ['m', '1'])

/-- `gleason_to_grade_group` from app.py: returns
`(grade_group?, score, description)`.  The score is always
`primary + secondary`; combinations outside the standard table give a `none`
grade group and never raise. -/
def gleason_to_grade_group (primary : Int) (secondary : Int) :
    Option Int × Int × String :=
  let score := primary + secondary
  let pattern := toString primary ++ "+" ++ toString secondary
  if primary = 3 ∧ secondary = 3 then
    (some 1, score, "Gleason " ++ pattern ++ "=" ++ toString score ++ " → Grade Group 1")
  else if primary = 3 ∧ secondary = 4 then
    (some 2, score, "Gleason " ++ pattern ++ "=" ++ toString score ++ " → Grade Group 2")
  else if primary = 4 ∧ secondary = 3 then
    (some 3, score, "Gleason " ++ pattern ++ "=" ++ toString score ++ " → Grade Group 3")
  else if (primary = 4 ∧ secondary = 4) ∨ (primary = 3 ∧ secondary = 5) ∨
      (primary = 5 ∧ secondary = 3) then
    (some 4, score, "Gleason " ++ pattern ++ "=" ++ toString score ++ " → Grade Group 4")
  else if (primary = 4 ∧ secondary = 5) ∨ (primary = 5 ∧ secondary = 4) ∨
      (primary = 5 ∧ secondary = 5) then
    (some 5, score, "Gleason " ++ pattern ++ "=" ++ toString score ++ " → Grade Group 5")
  else
    (none, score, "Gleason " ++ pattern ++ "=" ++ toString score ++
      " → pattern not in standard Grade Group table")

/-- The intermediate-risk-factor list built inside `classify_nccn_risk`
(app.py lines 274–280). -/
def nccn_irfs (t2bc : Bool) (grade_group : Int) (psa : ℚ) : List String :=
  (if t2bc then ["T2b–T2c"] else []) ++
  (if grade_group = 2 ∨ grade_group = 3 then ["Grade Group 2–3"] else []) ++
  (if 10 ≤ psa ∧ psa ≤ 20 then ["PSA 10–20"] else [])

/-- `classify_nccn_risk` from app.py: returns `(category, subcategory?)`,
mirroring the source's check order and `and`/`or` short-circuiting.  Raises on
`cores_total ≤ 0` before any other step, and propagates normalization errors
in the order the source evaluates the TNM predicates. -/
def classify_nccn_risk (t_stage n_stage m_stage : Str) (grade_group : Int)
    (psa : ℚ) (cores_positive cores_total : Int) :
    Except String (String × Option String) :=
  if cores_total ≤ 0 then .error "Total cores must be > 0"
  else
    let percent_cores : ℚ := 100 * (cores_positive : ℚ) / (cores_total : ℚ)
    match has_regional_nodes n_stage with
    | .error e => .error e
    | .ok hrn =>
      if hrn then
        .ok ("Metastatic/regional disease (outside localized risk groups)", none)
      else
        match has_distant_metastasis m_stage with
        | .error e => .error e
        | .ok hdm =>
          if hdm then
            .ok ("Metastatic/regional disease (outside localized risk groups)", none)
          else
            match is_t3_to_t4 t_stage with
            | .error e => .error e
            | .ok t34 =>
              let very_high_flags : List Bool :=
                [t34, decide (grade_group = 4 ∨ grade_group = 5), decide (psa > 40)]
              if 2 ≤ very_high_flags.count true then .ok ("Very high", none)
              else if t34 ∨ (grade_group = 4 ∨ grade_group = 5) ∨ psa > 20 then
                .ok ("High", none)
              else
                match is_t2b_to_t2c t_stage with
                | .error e => .error e
                | .ok t2bc =>
                  let irfs := nccn_irfs t2bc grade_group psa
                  if irfs ≠ [] then
                    if irfs.length = 1 ∧ (grade_group = 1 ∨ grade_group = 2) ∧
                        percent_cores < 50 then
                      .ok ("Intermediate", some "Favorable")
                    else
                      .ok ("Intermediate", some "Unfavorable")
                  else
                    match is_t1 t_stage with
                    | .error e => .error e
                    | .ok t1 =>
                      match (if t1 then .ok true else is_t2a t_stage :
                          Except String Bool) with
                      | .error e => .error e
                      | .ok t1_or_t2a =>
                        if t1_or_t2a ∧ grade_group = 1 ∧ psa < 10 then
                          .ok ("Low", none)
                        else
                          .ok ("Unclassifiable", none)

/-- The categories `classify_nccn_risk` can return. -/
def nccn_categories : List String :=
  ["Metastatic/regional disease (outside localized risk groups)",
   "Very high", "High", "Intermediate", "Low", "Unclassifiable"]

/-- `classify_disease_category` from app.py. -/
def classify_disease_category (n_stage m_stage : Str) : Except String String :=
  match has_distant_metastasis m_stage with
  | .error e => .error e
  | .ok hdm =>
    if hdm then .ok "Metastatic CSPC (M1)"
    else
      match has_regional_nodes n_stage with
      | .error e => .error e
      | .ok hrn =>
        if hrn ∧ ¬hdm then .ok "Node-positive (N1, M0)"
        else if ¬hrn ∧ ¬hdm then .ok "Localized"
        else .ok "Uncertain"

/-- `classify_ajcc_stage` from app.py: AJCC 8th prognostic stage groups,
mirroring the source's rule order.  The missing-grade-group check precedes
every staging rule; the final nested rule-9 conditional is flattened into a
single conjunction (`if A: if B: return` ≡ `if A ∧ B: return`). -/
def classify_ajcc_stage (t_stage n_stage m_stage : Str) (psa : ℚ)
    (grade_group : Option Int) : Except String String :=
  match grade_group with
  | none => .ok "Stage group cannot be determined (Grade Group unknown)"
  | some gg =>
    match has_distant_metastasis m_stage with
    | .error e => .error e
    | .ok hdm =>
      if hdm then .ok "Stage IVB"
      else
        match has_regional_nodes n_stage with
        | .error e => .error e
        | .ok hrn =>
          if hrn then .ok "Stage IVA"
          else
            match normalize_t_stage t_stage with
            | .error e => .error e
            | .ok sT =>
              if sT = ['t', 'x'] ∨ sT = ['t', '0'] then
                .ok "Stage cannot be determined (TX/T0)"
              else
                let is_T1 := py_startswith sT ['t', '1']
                let is_T2 := py_startswith sT ['t', '2']
                let is_T2a_ := py_startswith sT ['t', '2', 'a']
                let is_T2b_c := py_startswith sT ['t', '2', 'b'] ||
                  py_startswith sT ['t', '2', 'c']
                let is_T3_4 := py_startswith sT ['t', '3'] || py_startswith sT ['t', '4']
                if gg = 5 then .ok "Stage IIIC"
                else if is_T3_4 ∧ (gg = 1 ∨ gg = 2 ∨ gg = 3 ∨ gg = 4) then
                  .ok "Stage IIIB"
                else if (is_T1 ∨ is_T2) ∧ (gg = 1 ∨ gg = 2 ∨ gg = 3 ∨ gg = 4) ∧
                    psa ≥ 20 then
                  .ok "Stage IIIA"
                else if (is_T1 ∨ is_T2) ∧ (gg = 3 ∨ gg = 4) ∧ psa < 20 then
                  .ok "Stage IIC"
                else if (is_T1 ∨ is_T2) ∧ gg = 2 ∧ psa < 20 then
                  .ok "Stage IIB"
                else if (gg = 1 ∧ psa < 20) ∧
                    (((is_T1 ∨ is_T2a_) ∧ 10 ≤ psa ∧ psa < 20) ∨
                      (is_T2b_c ∧ psa < 20)) then
                  .ok "Stage IIA"
                else if gg = 1 ∧ (is_T1 ∨ is_T2a_) ∧ psa < 10 then
                  .ok "Stage I"
                else
                  .ok "Stage group cannot be determined"

/-- `T_STAGE_OPTIONS` from app.py (clinical T selectbox vocabulary). -/
def T_STAGE_OPTIONS : List Str :=
  ["cTX", "cT0", "cT1a", "cT1b", "cT1c", "cT2a", "cT2b", "cT2c", "cT3a", "cT3b",
   "cT4"].map String.data

/-- `N_STAGE_OPTIONS` from app.py (clinical N selectbox vocabulary). -/
def N_STAGE_OPTIONS : List Str := ["cNX", "cN0", "cN1"].map String.data

/-- `M_STAGE_OPTIONS` from app.py (M selectbox vocabulary). -/
def M_STAGE_OPTIONS : List Str := ["cM0", "cM1", "cM1a", "cM1b", "cM1c"].map String.data

/-- `PT_STAGE_OPTIONS` from app.py (pathologic T selectbox vocabulary). -/
def PT_STAGE_OPTIONS : List Str := ["pT2", "pT3a", "pT3b", "pT4"].map String.data

/-- `PN_STAGE_OPTIONS` from app.py (pathologic N selectbox vocabulary). -/
def PN_STAGE_OPTIONS : List Str := ["pNX", "pN0", "pN1"].map String.data

/-- The canonical T codes: every T vocabulary entry, normalized. -/
def T_canonical : List Str :=
  (T_STAGE_OPTIONS ++ PT_STAGE_OPTIONS).filterMap fun s => (normalize_t_stage s).toOption

/-- The canonical N codes: every N vocabulary entry, normalized. -/
def N_canonical : List Str :=
  (N_STAGE_OPTIONS ++ PN_STAGE_OPTIONS).filterMap fun s => (normalize_n_stage s).toOption

/-- The canonical M codes: every M vocabulary entry, normalized. -/
def M_canonical : List Str :=
  M_STAGE_OPTIONS.filterMap fun s => (normalize_m_stage s).toOption

/-- `CORE_SITES` from app.py: the fixed systematic 12-core template
(code, label), in template order. -/
def CORE_SITES : List (String × String) :=
  [("A", "LEFT LATERAL BASE"), ("B", "LEFT LATERAL MID"), ("C", "LEFT LATERAL APEX"),
   ("D", "LEFT MEDIAL BASE"), ("E", "LEFT MEDIAL MID"), ("F", "LEFT MEDIAL APEX"),
   ("G", "RIGHT MEDIAL BASE"), ("H", "RIGHT MEDIAL MID"), ("I", "RIGHT MEDIAL APEX"),
   ("J", "RIGHT LATERAL BASE"), ("K", "RIGHT LATERAL MID"), ("L", "RIGHT LATERAL APEX")]

/-- `TOTAL_SYSTEMATIC_CORES = len(CORE_SITES)` from app.py. -/
def TOTAL_SYSTEMATIC_CORES : Int := CORE_SITES.length

/-- `TARGETED_SITES` from app.py. -/
def TARGETED_SITES : List (String × String) :=
  [("T1", "Targeted core 1"), ("T2", "Targeted core 2"), ("T3", "Targeted core 3")]

/-- Per-site pathology input as read from the form state in the
classification handler: `Benign`, `ASAP`, `Not taken`, or `Cancer` with its
Gleason patterns, percent involvement, and EPE/PNI flags. -/
inductive CoreInput where
  | benign
  | asap
  | notTaken
  | cancer (primary secondary percent : Int) (epe pni : Bool)
deriving DecidableEq

/-- One entry of `systematic_cancer_cores` / `targeted_cancer_cores` from the
classification handler (app.py lines 1032–1045 / 1082–1097); the free-text
description of targeted cores is omitted (display only). -/
structure CancerCore where
  code : String
  label : String
  primary : Int
  secondary : Int
  gleason_score : Int
  grade_group : Option Int
  percent : Int
  systematic : Bool
  epe : Bool
  pni : Bool
deriving DecidableEq

/-- The cancer-core collection loop of the classification handler: walk the
given site template in order and keep the sites whose pathology result is
`Cancer`, grading each via `gleason_to_grade_group`. -/
def collect_cancer_cores (sites : List (String × String)) (systematic : Bool)
    (results : String → CoreInput) : List CancerCore :=
  sites.filterMap fun cl =>
    match results cl.1 with
    | .cancer p s pct epe pni =>
      let g := gleason_to_grade_group p s
      some { code := cl.1, label := cl.2, primary := p, secondary := s,
             gleason_score := g.2.1, grade_group := g.1, percent := pct,
             systematic := systematic, epe := epe, pni := pni }
    | _ => none

/-- `systematic_cancer_cores` from the classification handler. -/
def systematic_cancer_cores (results : String → CoreInput) : List CancerCore :=
  collect_cancer_cores CORE_SITES true results

/-- `targeted_cancer_cores` from the classification handler. -/
def targeted_cancer_cores (results : String → CoreInput) : List CancerCore :=
  collect_cancer_cores TARGETED_SITES false results

/-- `all_cancer_cores = systematic_cancer_cores + targeted_cancer_cores`
(app.py line 1122). -/
def all_cancer_cores (results : String → CoreInput) : List CancerCore :=
  systematic_cancer_cores results ++ targeted_cancer_cores results

/-- `positive_systematic = len(systematic_cancer_cores)` (app.py line 1123). -/
def positive_systematic (results : String → CoreInput) : Int :=
  (systematic_cancer_cores results).length

/-- `percent_sys_pos` (app.py lines 1126–1130): systematic denominator only. -/
def percent_sys_pos (results : String → CoreInput) : ℚ :=
  if 0 < TOTAL_SYSTEMATIC_CORES then
    100 * (positive_systematic results : ℚ) / (TOTAL_SYSTEMATIC_CORES : ℚ)
  else 0

/-- `highest_gg` (app.py lines 1136–1139): the maximum grade group over all
cancer cores whose grade group is known; `none` when there is none. -/
def highest_gg (results : String → CoreInput) : Option Int :=
  ((all_cancer_cores results).filterMap (fun c => c.grade_group)).max?

/-- `example_core` (app.py lines 1140–1141): the first core, in original site
order, whose grade group attains `highest_gg`. -/
def example_core (results : String → CoreInput) : Option CancerCore :=
  match highest_gg results with
  | none => none
  | some h => (all_cancer_cores results).find? (fun c => c.grade_group = some h)

/-- The concrete biopsy of §8 of the spec: 12 systematic cores of which three
are cancer (site A Gleason 3+4 = GG2, site B Gleason 4+4 = GG4, site C
Gleason 3+3 = GG1), no targeted cores taken. -/
def demo_results : String → CoreInput := fun code =>
  if code = "A" then .cancer 3 4 20 false false
  else if code = "B" then .cancer 4 4 30 false false
  else if code = "C" then .cancer 3 3 10 false false
  else if code = "T1" ∨ code = "T2" ∨ code = "T3" then .notTaken
  else .benign

instance {ε α : Type} [DecidableEq ε] [DecidableEq α] : DecidableEq (Except ε α) :=
  fun a b =>
    match a, b with
    | .ok x, .ok y =>
      if h : x = y then isTrue (by rw [h]) else
        isFalse (by intro hh; cases hh; exact h rfl)
    | .error x, .error y =>
      if h : x = y then isTrue (by rw [h]) else
        isFalse (by intro hh; cases hh; exact h rfl)
    | .ok _, .error _ => isFalse (by intro hh; cases hh)
    | .error _, .ok _ => isFalse (by intro hh; cases hh)

/-- The Grade-Group table of section 4.2 of the spec, written from the spec
words, for comparison against the source-derived `gleason_to_grade_group`. -/
def grade_group_spec_table (p s : Int) : Option Int :=
  if p = 3 ∧ s = 3 then some 1
  else if p = 3 ∧ s = 4 then some 2
  else if p = 4 ∧ s = 3 then some 3
  else if (p = 4 ∧ s = 4) ∨ (p = 3 ∧ s = 5) ∨ (p = 5 ∧ s = 3) then some 4
  else if (p = 4 ∧ s = 5) ∨ (p = 5 ∧ s = 4) ∨ (p = 5 ∧ s = 5) then some 5
  else none

/-! ### General helper lemmas -/

theorem except_map_ok {ε α β : Type} {f : α → β} {x : Except ε α} {b : β}
    (h : x.map f = .ok b) : ∃ s, x = .ok s ∧ f s = b := by
  cases x with
  | error e => simp [Except.map] at h
  | ok s => exact ⟨s, rfl, by simpa [Except.map] using h⟩

theorem py_startswith_comparable {s p q : Str} (hp : py_startswith s p = true)
    (hq : py_startswith s q = true) : p <+: q ∨ q <+: p := by
  have hp2 : p <+: s := by simpa [py_startswith] using hp
  have hq2 : q <+: s := by simpa [py_startswith] using hq
  exact List.prefix_or_prefix_of_prefix hp2 hq2

theorem py_startswith_incomp {s p q : Str} (hp : py_startswith s p = true)
    (h : ¬(p <+: q ∨ q <+: p)) : py_startswith s q = false := by
  cases hq : py_startswith s q with
  | false => rfl
  | true => exact absurd (py_startswith_comparable hp hq) h

theorem t1_or_t2a_sw {t : Str} (h : is_t1 t = .ok true ∨ is_t2a t = .ok true) :
    ∃ sT, normalize_t_stage t = .ok sT ∧
      (py_startswith sT ['t', '1'] || py_startswith sT ['t', '2', 'a']) = true := by
  rcases h with h | h
  · rw [is_t1] at h
    obtain ⟨sT, hnt, hsw⟩ := except_map_ok h
    exact ⟨sT, hnt, by simp [hsw]⟩
  · rw [is_t2a] at h
    obtain ⟨sT, hnt, hsw⟩ := except_map_ok h
    exact ⟨sT, hnt, by simp [hsw]⟩

/-! ### AJCC branch lemmas (Grade Group 1, N0/NX, M0 paths) -/

theorem ajcc_gg1_t2bc {t n m : Str} {psa : ℚ} {sT : Str}
    (ht : normalize_t_stage t = .ok sT)
    (hsw : (py_startswith sT ['t', '2', 'b'] || py_startswith sT ['t', '2', 'c']) = true)
    (hn : has_regional_nodes n = .ok false)
    (hm : has_distant_metastasis m = .ok false)
    (hpsa : psa < 20) :
    classify_ajcc_stage t n m psa (some 1) = .ok "Stage IIA" := by
  have h20 : ¬psa ≥ 20 := not_le.mpr hpsa
  rcases Bool.or_eq_true _ _ |>.mp hsw with hp | hp
  all_goals {
    have h3 : py_startswith sT ['t', '3'] = false := py_startswith_incomp hp (by decide)
    have h4 : py_startswith sT ['t', '4'] = false := py_startswith_incomp hp (by decide)
    have hne : ¬(sT = ['t', 'x'] ∨ sT = ['t', '0']) := by
      rintro (rfl | rfl) <;> exact absurd hp (by decide)
    simp [classify_ajcc_stage, hm, hn, ht, hne, h3, h4, hp, hpsa, h20]
  }

theorem ajcc_gg1_t1_t2a_low {t n m : Str} {psa : ℚ} {sT : Str}
    (ht : normalize_t_stage t = .ok sT)
    (hsw : (py_startswith sT ['t', '1'] || py_startswith sT ['t', '2', 'a']) = true)
    (hn : has_regional_nodes n = .ok false)
    (hm : has_distant_metastasis m = .ok false)
    (hpsa : psa < 10) :
    classify_ajcc_stage t n m psa (some 1) = .ok "Stage I" := by
  have h20 : ¬psa ≥ 20 := not_le.mpr (by linarith)
  have h10 : ¬(10 : ℚ) ≤ psa := not_le.mpr hpsa
  rcases Bool.or_eq_true _ _ |>.mp hsw with hp | hp
  all_goals {
    have h3 : py_startswith sT ['t', '3'] = false := py_startswith_incomp hp (by decide)
    have h4 : py_startswith sT ['t', '4'] = false := py_startswith_incomp hp (by decide)
    have h2b : py_startswith sT ['t', '2', 'b'] = false := py_startswith_incomp hp (by decide)
    have h2c : py_startswith sT ['t', '2', 'c'] = false := py_startswith_incomp hp (by decide)
    have hne : ¬(sT = ['t', 'x'] ∨ sT = ['t', '0']) := by
      rintro (rfl | rfl) <;> exact absurd hp (by decide)
    simp [classify_ajcc_stage, hm, hn, ht, hne, h3, h4, h2b, h2c, hp, hpsa, h20, h10]
  }

theorem ajcc_gg1_t1_t2a_mid {t n m : Str} {psa : ℚ} {sT : Str}
    (ht : normalize_t_stage t = .ok sT)
    (hsw : (py_startswith sT ['t', '1'] || py_startswith sT ['t', '2', 'a']) = true)
    (hn : has_regional_nodes n = .ok false)
    (hm : has_distant_metastasis m = .ok false)
    (h10 : 10 ≤ psa) (h20 : psa < 20) :
    classify_ajcc_stage t n m psa (some 1) = .ok "Stage IIA" := by
  have h20n : ¬psa ≥ 20 := not_le.mpr h20
  rcases Bool.or_eq_true _ _ |>.mp hsw with hp | hp
  all_goals {
    have h3 : py_startswith sT ['t', '3'] = false := py_startswith_incomp hp (by decide)
    have h4 : py_startswith sT ['t', '4'] = false := py_startswith_incomp hp (by decide)
    have hne : ¬(sT = ['t', 'x'] ∨ sT = ['t', '0']) := by
      rintro (rfl | rfl) <;> exact absurd hp (by decide)
    simp [classify_ajcc_stage, hm, hn, ht, hne, h3, h4, hp, h10, h20, h20n]
  }

/-! ### NCCN helper lemmas -/

theorem nccn_metastatic {t n m : Str} {gg : Int} {psa : ℚ} {cp ct : Int} {bn bm : Bool}
    (hct : 0 < ct) (hn : has_regional_nodes n = .ok bn)
    (hm : has_distant_metastasis m = .ok bm) (hor : bn = true ∨ bm = true) :
    classify_nccn_risk t n m gg psa cp ct =
      .ok ("Metastatic/regional disease (outside localized risk groups)", none) := by
  have hct2 : ¬ct ≤ 0 := by omega
  cases bn with
  | true => simp [classify_nccn_risk, hn, hct2]
  | false =>
    have hbm : bm = true := by tauto
    subst hbm
    simp [classify_nccn_risk, hn, hm, hct2]

theorem nccn_total_ok {t n m : Str} {gg : Int} {psa : ℚ} {cp ct : Int}
    {st sn sm : Str} (hnt : normalize_t_stage t = .ok st)
    (hnn : normalize_n_stage n = .ok sn) (hnm : normalize_m_stage m = .ok sm)
    (hct : 0 < ct) :
    ∃ cat sub, classify_nccn_risk t n m gg psa cp ct = .ok (cat, sub) ∧
      cat ∈ nccn_categories := by
  have hct2 : ¬ct ≤ 0 := by omega
  have hn2 : has_regional_nodes n = .ok (py_startswith sn ['n', '1']) := by
    simp [has_regional_nodes, hnn, Except.map]
  have hm2 : has_distant_metastasis m = .ok (py_startswith sm ['m', '1']) := by
    simp [has_distant_metastasis, hnm, Except.map]
  have ht34 : is_t3_to_t4 t =
      .ok (py_startswith st ['t', '3'] || py_startswith st ['t', '4']) := by
    simp [is_t3_to_t4, hnt, Except.map]
  have ht2bc : is_t2b_to_t2c t =
      .ok (py_startswith st ['t', '2', 'b'] || py_startswith st ['t', '2', 'c']) := by
    simp [is_t2b_to_t2c, hnt, Except.map]
  have ht1 : is_t1 t = .ok (py_startswith st ['t', '1']) := by
    simp [is_t1, hnt, Except.map]
  have ht2a : is_t2a t = .ok (py_startswith st ['t', '2', 'a']) := by
    simp [is_t2a, hnt, Except.map]
  simp only [classify_nccn_risk, hct2, if_false, hn2, hm2, ht34, ht2bc, ht1, ht2a]
  split_ifs <;> first
    | exact ⟨_, _, rfl, by decide⟩
    | (simp only []; split_ifs <;> exact ⟨_, _, rfl, by decide⟩)

/-! ### Core-aggregation helper lemmas -/

theorem collect_cancer_cores_congr {sites : List (String × String)} {b : Bool}
    {r r2 : String → CoreInput} (h : ∀ cl ∈ sites, r cl.1 = r2 cl.1) :
    collect_cancer_cores sites b r = collect_cancer_cores sites b r2 := by
  induction sites with
  | nil => rfl
  | cons x xs ih =>
    have hx := h x (by simp)
    have ih2 := ih fun cl hcl => h cl (by simp [hcl])
    simp only [collect_cancer_cores, List.filterMap_cons] at ih2 ⊢
    rw [hx, ih2]

theorem percent_sys_pos_congr {r r2 : String → CoreInput}
    (h : ∀ cl ∈ CORE_SITES, r cl.1 = r2 cl.1) :
    percent_sys_pos r = percent_sys_pos r2 := by
  unfold percent_sys_pos positive_systematic systematic_cancer_cores
  rw [collect_cancer_cores_congr h]

theorem highest_gg_is_max {r : String → CoreInput} {h : Int}
    (hh : highest_gg r = some h) :
    (∃ c ∈ all_cancer_cores r, c.grade_group = some h) ∧
      ∀ c ∈ all_cancer_cores r, ∀ g : Int, c.grade_group = some g → g ≤ h := by
  rw [highest_gg] at hh
  haveI : Std.Antisymm ((· : Int) ≤ ·) := ⟨fun h1 h2 => Int.le_antisymm h1 h2⟩
  have hiff := (List.max?_eq_some_iff (a := h) Int.le_refl max_choice
    (fun _ _ _ => max_le_iff)).mp hh
  obtain ⟨hmem, hle⟩ := hiff
  constructor
  · obtain ⟨c, hc, hcg⟩ := List.mem_filterMap.mp hmem
    exact ⟨c, hc, hcg⟩
  · intro c hc g hg
    exact hle g (List.mem_filterMap.mpr ⟨c, hc, hg⟩)

theorem example_core_spec {r : String → CoreInput} {h : Int} {e : CancerCore}
    (hh : highest_gg r = some h) (he : example_core r = some e) :
    e.grade_group = some h ∧
      ∃ pre post, all_cancer_cores r = pre ++ e :: post ∧
        ∀ c ∈ pre, c.grade_group ≠ some h := by
  rw [example_core, hh] at he
  obtain ⟨hpe, pre, post, hsplit, hfirst⟩ := List.find?_eq_some.mp he
  refine ⟨of_decide_eq_true hpe, pre, post, hsplit, fun c hc => ?_⟩
  have := hfirst c hc
  simpa using this

/-! ### Claim theorems -/

/-- C1 (counterexample): on input (T2b, N0, M0, Grade Group 2, PSA 8, 2/12
cores), `classify_nccn_risk` does NOT return Intermediate/Favorable as the
claim states: it returns Intermediate/Unfavorable, because Grade Group 2 is
itself a second intermediate-risk factor. -/
theorem C1_counterexample :
    classify_nccn_risk "cT2b".data "cN0".data "cM0".data 2 8 2 12 =
      .ok ("Intermediate", some "Unfavorable") ∧
    classify_nccn_risk "cT2b".data "cN0".data "cM0".data 2 8 2 12 ≠
      .ok ("Intermediate", some "Favorable") := ⟨rfl, by decide⟩

/-- C1 (amended): for the input (T2b, N0, M0, Grade Group 2, PSA 8, 2/12
cores), `classify_nccn_risk` returns category Intermediate with subcategory
Unfavorable: TWO intermediate-risk factors are counted (T2b–T2c and Grade
Group 2–3), so the favorable test (exactly one IRF) fails even though Grade
Group ∈ [1, 2] and the percent of positive cores, 100·2/12 ≈ 16.7, is < 50. -/
theorem C1_amended :
    classify_nccn_risk "cT2b".data "cN0".data "cM0".data 2 8 2 12 =
      .ok ("Intermediate", some "Unfavorable") ∧
    nccn_irfs true 2 8 = ["T2b–T2c", "Grade Group 2–3"] ∧
    is_t2b_to_t2c "cT2b".data = .ok true ∧
    100 * (2 : ℚ) / 12 < 50 :=
  ⟨rfl, rfl, rfl, by norm_num⟩

/-- C2 (counterexample): a PSA < 10, T2b, Grade Group 1, N0, M0 input does not
fall through to "Stage group cannot be determined" as the claim states;
`classify_ajcc_stage` returns "Stage IIA" via rule 9's T2b–T2c arm. -/
theorem C2_counterexample :
    classify_ajcc_stage "cT2b".data "cN0".data "cM0".data 8 (some 1) =
      .ok "Stage IIA" ∧
    classify_ajcc_stage "cT2b".data "cN0".data "cM0".data 8 (some 1) ≠
      .ok "Stage group cannot be determined" := ⟨rfl, by decide⟩

/-- C2 (amended): for every input with a T stage in T2b–T2c, Grade Group 1,
M0, N0 and PSA < 10, `classify_ajcc_stage` returns "Stage IIA" (not
"Stage I" and not a fall-through): rule 9's second disjunct (T2b–T2c and
PSA < 20) already covers PSA < 10. -/
theorem C2_amended (t n m : Str) (psa : ℚ)
    (ht : is_t2b_to_t2c t = .ok true)
    (hn : has_regional_nodes n = .ok false)
    (hm : has_distant_metastasis m = .ok false)
    (hpsa : psa < 10) :
    classify_ajcc_stage t n m psa (some 1) = .ok "Stage IIA" := by
  rw [is_t2b_to_t2c] at ht
  obtain ⟨sT, hnt, hsw⟩ := except_map_ok ht
  exact ajcc_gg1_t2bc hnt hsw hn hm (by linarith)

/-- C2 (witness): the amended claim instantiated at (cT2b, cN0, cM0, PSA 8,
Grade Group 1). -/
theorem C2_witness :
    is_t2b_to_t2c "cT2b".data = .ok true ∧
    has_regional_nodes "cN0".data = .ok false ∧
    has_distant_metastasis "cM0".data = .ok false ∧
    (8 : ℚ) < 10 ∧
    classify_ajcc_stage "cT2b".data "cN0".data "cM0".data 8 (some 1) =
      .ok "Stage IIA" :=
  ⟨rfl, rfl, rfl, by decide,
   C2_amended "cT2b".data "cN0".data "cM0".data 8 rfl rfl rfl (by decide)⟩

/-- C3: in `classify_ajcc_stage` with N0, M0 and Grade Group 1: a T1 or T2a
tumor with PSA < 10 does not satisfy the Stage IIA rule and returns
"Stage I"; a T1 or T2a tumor with PSA ∈ [10, 20) returns "Stage IIA"; and for
T2b–T2c any PSA < 20 returns "Stage IIA" — the asymmetric PSA ranges of rules
9 and 10 are preserved exactly. -/
theorem C3_asymmetric_psa_ranges (t n m : Str) (psa : ℚ)
    (hn : has_regional_nodes n = .ok false)
    (hm : has_distant_metastasis m = .ok false) :
    ((is_t1 t = .ok true ∨ is_t2a t = .ok true) → psa < 10 →
      classify_ajcc_stage t n m psa (some 1) = .ok "Stage I") ∧
    ((is_t1 t = .ok true ∨ is_t2a t = .ok true) → 10 ≤ psa → psa < 20 →
      classify_ajcc_stage t n m psa (some 1) = .ok "Stage IIA") ∧
    (is_t2b_to_t2c t = .ok true → psa < 20 →
      classify_ajcc_stage t n m psa (some 1) = .ok "Stage IIA") := by
  refine ⟨?_, ?_, ?_⟩
  · intro ht hpsa
    obtain ⟨sT, hnt, hsw⟩ := t1_or_t2a_sw ht
    exact ajcc_gg1_t1_t2a_low hnt hsw hn hm hpsa
  · intro ht h10 h20
    obtain ⟨sT, hnt, hsw⟩ := t1_or_t2a_sw ht
    exact ajcc_gg1_t1_t2a_mid hnt hsw hn hm h10 h20
  · intro ht hpsa
    rw [is_t2b_to_t2c] at ht
    obtain ⟨sT, hnt, hsw⟩ := except_map_ok ht
    exact ajcc_gg1_t2bc hnt hsw hn hm hpsa

/-- C3 (witness): the three rule-9/10 arms instantiated at (cT1c, PSA 8 →
Stage I), (cT1c, PSA 15 → Stage IIA) and (cT2b, PSA 15 → Stage IIA), all with
cN0/cM0 and Grade Group 1. -/
theorem C3_witness :
    is_t1 "cT1c".data = .ok true ∧
    classify_ajcc_stage "cT1c".data "cN0".data "cM0".data 8 (some 1) =
      .ok "Stage I" ∧
    classify_ajcc_stage "cT1c".data "cN0".data "cM0".data 15 (some 1) =
      .ok "Stage IIA" ∧
    classify_ajcc_stage "cT2b".data "cN0".data "cM0".data 15 (some 1) =
      .ok "Stage IIA" :=
  ⟨rfl,
   (C3_asymmetric_psa_ranges "cT1c".data "cN0".data "cM0".data 8 rfl rfl).1
     (Or.inl rfl) (by decide),
   (C3_asymmetric_psa_ranges "cT1c".data "cN0".data "cM0".data 15 rfl rfl).2.1
     (Or.inl rfl) (by decide) (by decide),
   (C3_asymmetric_psa_ranges "cT2b".data "cN0".data "cM0".data 15 rfl rfl).2.2
     rfl (by decide)⟩

/-- C4: for every input with cores_total > 0 whose N stage is N1 or whose M
stage is M1 (including M1a/b/c), `classify_nccn_risk` returns the
metastatic/regional category with no subcategory, regardless of T stage,
Grade Group, PSA and core counts. -/
theorem C4_metastatic_first (t n m : Str) (gg : Int) (psa : ℚ) (cp ct : Int)
    (bn bm : Bool) (hct : 0 < ct) (hn : has_regional_nodes n = .ok bn)
    (hm : has_distant_metastasis m = .ok bm) (hor : bn = true ∨ bm = true) :
    classify_nccn_risk t n m gg psa cp ct =
      .ok ("Metastatic/regional disease (outside localized risk groups)", none) :=
  nccn_metastatic hct hn hm hor

/-- C4 (witness): instantiated at (cT3a, cN0, cM1b, Grade Group 5, PSA 50,
6/12 cores): M1b alone forces the metastatic/regional category. -/
theorem C4_witness :
    (0 : Int) < 12 ∧
    has_distant_metastasis "cM1b".data = .ok true ∧
    classify_nccn_risk "cT3a".data "cN0".data "cM1b".data 5 50 6 12 =
      .ok ("Metastatic/regional disease (outside localized risk groups)", none) :=
  ⟨by decide, rfl,
   C4_metastatic_first "cT3a".data "cN0".data "cM1b".data 5 50 6 12 false true
     (by decide) rfl rfl (Or.inr rfl)⟩

/-- C5: `gleason_to_grade_group` is total; for every integer pair the score
component is primary + secondary; and on all of [3, 4, 5] × [3, 4, 5] the
grade group matches the §4.2 table exactly and is never `none`. -/
theorem C5_gleason_table : ∀ p s : Int,
    (gleason_to_grade_group p s).2.1 = p + s ∧
    (p ∈ ([3, 4, 5] : List Int) → s ∈ ([3, 4, 5] : List Int) →
      (gleason_to_grade_group p s).1 = grade_group_spec_table p s ∧
        (gleason_to_grade_group p s).1 ≠ none) := by
  intro p s
  constructor
  · simp only [gleason_to_grade_group]
    split_ifs <;> rfl
  · intro hp hs
    fin_cases hp <;> fin_cases hs <;> exact ⟨by decide, by decide⟩

/-- C5 (witness): the table fact instantiated at the pair (5, 3): score 8,
Grade Group 4, not `none`. -/
theorem C5_witness :
    (gleason_to_grade_group 5 3).2.1 = 5 + 3 ∧
    (gleason_to_grade_group 5 3).1 = grade_group_spec_table 5 3 ∧
    (gleason_to_grade_group 5 3).1 ≠ none :=
  ⟨(C5_gleason_table 5 3).1, (C5_gleason_table 5 3).2 (by decide) (by decide)⟩

/-- C6: with well-formed TNM strings, `classify_nccn_risk` raises if and only
if cores_total ≤ 0; with cores_total > 0 it never raises and returns one of
the six enumerated categories. -/
theorem C6_error_iff_bad_cores (t n m : Str) (gg : Int) (psa : ℚ) (cp ct : Int)
    (st sn sm : Str) (hnt : normalize_t_stage t = .ok st)
    (hnn : normalize_n_stage n = .ok sn) (hnm : normalize_m_stage m = .ok sm) :
    ((∃ e, classify_nccn_risk t n m gg psa cp ct = .error e) ↔ ct ≤ 0) ∧
    (0 < ct → ∃ cat sub, classify_nccn_risk t n m gg psa cp ct = .ok (cat, sub) ∧
      cat ∈ nccn_categories) := by
  constructor
  · constructor
    · rintro ⟨e, he⟩
      by_contra hct
      have hct2 : 0 < ct := by omega
      obtain ⟨cat, sub, hok, -⟩ := nccn_total_ok hnt hnn hnm hct2
      rw [hok] at he
      cases he
    · intro hct
      exact ⟨"Total cores must be > 0", by simp [classify_nccn_risk, hct]⟩
  · intro hct
    exact nccn_total_ok hnt hnn hnm hct

/-- C6 (witness): instantiated at (cT1c, cN0, cM0, Grade Group 1, PSA 5, 3/12
cores). -/
theorem C6_witness :
    normalize_t_stage "cT1c".data = .ok "t1c".data ∧
    (((∃ e, classify_nccn_risk "cT1c".data "cN0".data "cM0".data 1 5 3 12 =
        .error e) ↔ (12 : Int) ≤ 0) ∧
      (0 < (12 : Int) →
        ∃ cat sub, classify_nccn_risk "cT1c".data "cN0".data "cM0".data 1 5 3 12 =
          .ok (cat, sub) ∧ cat ∈ nccn_categories)) :=
  ⟨rfl, C6_error_iff_bad_cores "cT1c".data "cN0".data "cM0".data 1 5 3 12
    "t1c".data "n0".data "m0".data rfl rfl rfl⟩

/-- C7: the core aggregation: percent-positive-systematic depends only on the
systematic sites and equals 100 · (systematic cancer count) / 12; the highest
Grade Group is the maximum grade group over all cancer cores (systematic and
targeted); when several cores attain it, the exemplar core is the first such
core in original site order; and on the concrete 12-core biopsy with three
cancer cores (GG2, GG4, GG1) and no targeted cores the results are highest
Grade Group 4, percent positive 25, exemplar = the GG4 core (site B). -/
theorem C7_aggregation :
    (∀ r r2 : String → CoreInput, (∀ cl ∈ CORE_SITES, r cl.1 = r2 cl.1) →
      percent_sys_pos r = percent_sys_pos r2) ∧
    (∀ r : String → CoreInput,
      percent_sys_pos r = 100 * (positive_systematic r : ℚ) / 12) ∧
    (∀ (r : String → CoreInput) (h : Int), highest_gg r = some h →
      (∃ c ∈ all_cancer_cores r, c.grade_group = some h) ∧
        ∀ c ∈ all_cancer_cores r, ∀ g : Int, c.grade_group = some g → g ≤ h) ∧
    (∀ (r : String → CoreInput) (h : Int) (e : CancerCore),
      highest_gg r = some h → example_core r = some e →
      e.grade_group = some h ∧
        ∃ pre post, all_cancer_cores r = pre ++ e :: post ∧
          ∀ c ∈ pre, c.grade_group ≠ some h) ∧
    (highest_gg demo_results = some 4 ∧
      percent_sys_pos demo_results = 25 ∧
      (example_core demo_results).map (fun c => (c.code, c.grade_group)) =
        some ("B", some 4) ∧
      positive_systematic demo_results = 3 ∧
      targeted_cancer_cores demo_results = []) := by
  refine ⟨fun r r2 h => percent_sys_pos_congr h, ?_,
    fun r h hh => highest_gg_is_max hh,
    fun r h e hh he => example_core_spec hh he,
    by decide, ?_, by decide, by decide, by decide⟩
  · intro r
    have h12 : TOTAL_SYSTEMATIC_CORES = 12 := rfl
    simp only [percent_sys_pos, h12]
    norm_num
  · have h1 : positive_systematic demo_results = 3 := by decide
    have h2 : TOTAL_SYSTEMATIC_CORES = 12 := rfl
    simp only [percent_sys_pos, h1, h2]
    norm_num

/-- C7 (witness): the max/exemplar facts instantiated at the concrete demo
biopsy, with its highest Grade Group 4. -/
theorem C7_witness :
    ((∃ c ∈ all_cancer_cores demo_results, c.grade_group = some 4) ∧
      ∀ c ∈ all_cancer_cores demo_results, ∀ g : Int,
        c.grade_group = some g → g ≤ 4) ∧
    percent_sys_pos demo_results = percent_sys_pos demo_results :=
  ⟨C7_aggregation.2.2.1 demo_results 4 (by decide),
   C7_aggregation.1 demo_results demo_results (fun cl _ => rfl)⟩

/-- C8: whenever the grade group is `none`, `classify_ajcc_stage` returns
"Stage group cannot be determined (Grade Group unknown)" for every TNM and
PSA input — including N1 or M1 inputs, since the missing-grade-group check
precedes every staging rule. -/
theorem C8_unknown_grade_group (t n m : Str) (psa : ℚ) :
    classify_ajcc_stage t n m psa none =
      .ok "Stage group cannot be determined (Grade Group unknown)" := rfl

/-- C9: stage-normalization round-trip: for every canonical code of the T, N
and M vocabularies, prepending a "c" or "p" prefix and normalizing with the
matching axis returns the canonical code unchanged. -/
theorem C9_roundtrip :
    (∀ code ∈ T_canonical, normalize_t_stage ('c' :: code) = .ok code ∧
      normalize_t_stage ('p' :: code) = .ok code) ∧
    (∀ code ∈ N_canonical, normalize_n_stage ('c' :: code) = .ok code ∧
      normalize_n_stage ('p' :: code) = .ok code) ∧
    (∀ code ∈ M_canonical, normalize_m_stage ('c' :: code) = .ok code ∧
      normalize_m_stage ('p' :: code) = .ok code) :=
  ⟨by decide, by decide, by decide⟩

/-- C9 (witness): round-trip instantiated at the canonical T code "t2a". -/
theorem C9_witness :
    normalize_t_stage ('c' :: "t2a".data) = .ok "t2a".data ∧
    normalize_t_stage ('p' :: "t2a".data) = .ok "t2a".data :=
  C9_roundtrip.1 "t2a".data (by decide)

/-- C10: for every N and M accepted by the normalizers,
`classify_disease_category` returns exactly the metastatic, node-positive or
localized label determined by the two predicates (metastatic first), and the
"Uncertain" fallback is unreachable. -/
theorem C10_no_uncertain (n m : Str) (bn bm : Bool)
    (hn : has_regional_nodes n = .ok bn)
    (hm : has_distant_metastasis m = .ok bm) :
    classify_disease_category n m =
      .ok (if bm then "Metastatic CSPC (M1)"
        else if bn then "Node-positive (N1, M0)" else "Localized") ∧
    classify_disease_category n m ≠ .ok "Uncertain" := by
  cases bn <;> cases bm <;>
    exact ⟨by simp [classify_disease_category, hn, hm],
      by simp [classify_disease_category, hn, hm]⟩

/-- C10 (witness): instantiated at (cN1, cM0): node-positive, not
"Uncertain". -/
theorem C10_witness :
    classify_disease_category "cN1".data "cM0".data =
      .ok (if false then "Metastatic CSPC (M1)"
        else if true then "Node-positive (N1, M0)" else "Localized") ∧
    classify_disease_category "cN1".data "cM0".data ≠ .ok "Uncertain" :=
  C10_no_uncertain "cN1".data "cM0".data true false rfl rfl
